import Mathlib

/-!
Shallow embedding of the wheelhouse backend (FastAPI + SQLAlchemy) core:
the Metrics Engine (computed fields of `PositionResponse` in
`app/schemas/position.py`), the Position Lifecycle Manager (the handlers in
`app/routers/positions.py`), and the Aggregation Layer
(`app/routers/dashboard.py`).

Modelling conventions:
* Python `Decimal` is modelled as `Rat` (exact decimal arithmetic);
* dates are modelled as day numbers in `Int`, so `(d2 - d1).days` is `d2 - d1`;
* UUIDs are modelled as opaque `Nat` identifiers; `uuid4()` freshness is an
  explicit hypothesis where a claim needs it;
* the SQLAlchemy session is modelled as an explicit `DB` value; each handler
  maps the pre-state to `(post-state, result)`, the post-state being the state
  that is committed (on an `HTTPException` raised before `db.commit()` the
  pre-state is returned unchanged, which is what the caller observes);
* the server-maintained `created_at` / `updated_at` timestamps are omitted:
  no handler logic and no claim reads or writes them.
-/

namespace Wheelhouse

/-- The `PositionType` enum from `app/schemas/enums.py`. -/
inductive PositionType
  | COVERED_CALL
  | CASH_SECURED_PUT
deriving DecidableEq

/-- The `.value` of the Python `str`-enum. -/
def PositionType.value : PositionType → String
  | .COVERED_CALL => "COVERED_CALL"
  | .CASH_SECURED_PUT => "CASH_SECURED_PUT"

/-- A stored row of the `positions` table (`app/models/position.py`).
`type`, `status` and `outcome` are stored as text, as in the ORM model. -/
structure Position where
  id : Nat
  user_id : Nat
  account_id : Nat
  ticker : String
  type : String
  status : String
  open_date : Int
  expiration_date : Int
  close_date : Option Int
  strike_price : Rat
  contracts : Int
  multiplier : Int
  premium_per_share : Rat
  open_fees : Rat
  close_fees : Rat
  close_price_per_share : Option Rat
  outcome : Option String
  roll_group_id : Option Nat
  notes : Option String
  tags : Option (List String)
deriving DecidableEq

/-- A stored row of the `accounts` table (only the fields the position
handlers consult: primary key and owner). -/
structure Account where
  id : Nat
  user_id : Nat
deriving DecidableEq

/-- The stored state visible to the handlers. -/
structure DB where
  accounts : List Account
  positions : List Position
deriving DecidableEq

/-! ## Metrics Engine: computed fields of `PositionResponse`
(`app/schemas/position.py`, lines 82-121). -/

/-- Metric `premium_total = premium_per_share * contracts * multiplier`. -/
def premium_total (p : Position) : Rat :=
  p.premium_per_share * (p.contracts : Rat) * (p.multiplier : Rat)

/-- Metric `premium_net = premium_total - open_fees - close_fees`. -/
def premium_net (p : Position) : Rat :=
  premium_total p - p.open_fees - p.close_fees

/-- Metric `collateral = strike_price * contracts * multiplier`. -/
def collateral (p : Position) : Rat :=
  p.strike_price * (p.contracts : Rat) * (p.multiplier : Rat)

/-- Metric `roc_period`: `premium_net / collateral`, guarded to `0` when
`collateral == 0`. -/
def roc_period (p : Position) : Rat :=
  if collateral p = 0 then 0 else premium_net p / collateral p

/-- Metric `days_in_trade`, as computed inline by `annualized_roc` in the source:
`(close_date - open_date).days` if closed, else
`(expiration_date - open_date).days`. -/
def days_in_trade (p : Position) : Int :=
  match p.close_date with
  | some c => c - p.open_date
  | none => p.expiration_date - p.open_date

/-- Metric `annualized_roc`: `0` when `collateral == 0`; `0` when
`days_in_trade <= 0`; else `roc_period * 365 / days_in_trade`. -/
def annualized_roc (p : Position) : Rat :=
  if collateral p = 0 then 0
  else if days_in_trade p ≤ 0 then 0
  else roc_period p * 365 / (days_in_trade p : Rat)

/-- Concrete position used by witnesses: an OPEN covered call. -/
def basePos : Position :=
  { id := 1, user_id := 7, account_id := 1, ticker := "AAPL",
    type := "COVERED_CALL", status := "OPEN",
    open_date := 0, expiration_date := 30, close_date := none,
    strike_price := 100, contracts := 1, multiplier := 1,
    premium_per_share := 10, open_fees := 0, close_fees := 0,
    close_price_per_share := none, outcome := none, roll_group_id := none,
    notes := none, tags := none }

/-! ## Request schemas (`app/schemas/position.py`) -/

/-- Schema `PositionCreate` after pydantic parsing: `type` is the enum, defaults
`multiplier = 100`, `open_fees = 0`, `notes = None`, `tags = None`. -/
structure PositionCreate where
  account_id : Nat
  ticker : String
  type : PositionType
  open_date : Int
  expiration_date : Int
  strike_price : Rat
  contracts : Int
  premium_per_share : Rat
  multiplier : Int := 100
  open_fees : Rat := 0
  notes : Option String := none
  tags : Option (List String) := none
deriving DecidableEq

/-- Schema `PositionUpdate` after pydantic parsing: every field optional, default
`None`.  `fieldsSet` models pydantic's `model_fields_set`, the set of fields
explicitly present in the request body, which `model_dump(exclude_unset=True)`
consults; a field may be explicitly present with value `None`. -/
structure PositionUpdate where
  account_id : Option Nat := none
  ticker : Option String := none
  type : Option PositionType := none
  open_date : Option Int := none
  expiration_date : Option Int := none
  strike_price : Option Rat := none
  contracts : Option Int := none
  premium_per_share : Option Rat := none
  multiplier : Option Int := none
  open_fees : Option Rat := none
  close_fees : Option Rat := none
  close_price_per_share : Option Rat := none
  notes : Option String := none
  tags : Option (List String) := none
  fieldsSet : List String := []
deriving DecidableEq

/-- Schema `PositionClose` after pydantic parsing: `outcome` is constrained by
`Literal["EXPIRED", "ASSIGNED", "CLOSED_EARLY"]` at parse time and carried
as text. -/
structure PositionClose where
  outcome : String
  close_date : Int
  close_price_per_share : Option Rat := none
  close_fees : Option Rat := none
deriving DecidableEq

/-- Modelled from the spec: `PositionRollClose` is imported by the roll
endpoint from `app.schemas.position` but its definition is absent from the
source tree; per the spec and the handler's accesses, roll close terms carry
`close_date` and optional close price / close fees (the outcome is forced to
ROLLED by the handler, so it is not a field). -/
structure PositionRollClose where
  close_date : Int
  close_price_per_share : Option Rat := none
  close_fees : Option Rat := none
deriving DecidableEq

/-- Modelled from the spec: `PositionRoll` is imported by the roll endpoint
but absent from the source tree; per the spec and the handler's accesses
(`body.close`, `body.open`), it bundles the close terms for the old leg and
the `PositionCreate` terms for the new leg. -/
structure PositionRoll where
  close : PositionRollClose
  «open» : PositionCreate
deriving DecidableEq

/-! ## Value-level schema validation as the source defines it

The source `PositionCreate` / `PositionUpdate` / `PositionClose` declare no
`Field` constraints: the only value-level checks pydantic performs for them
are the enum coercion of `type` and the `Literal` constraint on `outcome`
(`AccountCreate`, by contrast, does declare `min_length`/`max_length`).
The parse functions below embed exactly those checks. -/

/-- Coercion of a raw string into the `PositionType` enum (pydantic's enum
validation). -/
def PositionType.ofString : String → Option PositionType
  | "COVERED_CALL" => some .COVERED_CALL
  | "CASH_SECURED_PUT" => some .CASH_SECURED_PUT
  | _ => none

/-- Error kinds raised by the position endpoints, plus the pydantic-level
validation failure (HTTP 422) and the storage-level NOT NULL violation
surfaced at `db.commit()` (SQLAlchemy `IntegrityError`, an unhandled HTTP
500: `main.py` installs no exception handler for it). -/
inductive ApiError
  | notFound
  | accountNotOwned
  | alreadyClosed
  | validationFailure
  | integrityError
deriving DecidableEq

/-- Raw `PositionCreate` body before validation: `type` still raw text. -/
structure PositionCreateRaw where
  account_id : Nat
  ticker : String
  type : String
  open_date : Int
  expiration_date : Int
  strike_price : Rat
  contracts : Int
  premium_per_share : Rat
  multiplier : Int := 100
  open_fees : Rat := 0
  notes : Option String := none
  tags : Option (List String) := none
deriving DecidableEq

/-- Pydantic validation of `PositionCreate` as the source schema defines it:
the enum check on `type` is the only value-level constraint (no positivity,
no sign, no ticker-length check appears in the schema). -/
def parsePositionCreate (raw : PositionCreateRaw) : Except ApiError PositionCreate :=
  match PositionType.ofString raw.type with
  | none => .error .validationFailure
  | some t =>
      .ok { account_id := raw.account_id, ticker := raw.ticker, type := t,
            open_date := raw.open_date, expiration_date := raw.expiration_date,
            strike_price := raw.strike_price, contracts := raw.contracts,
            premium_per_share := raw.premium_per_share,
            multiplier := raw.multiplier, open_fees := raw.open_fees,
            notes := raw.notes, tags := raw.tags }

/-- Pydantic validation of `PositionClose` as the source schema defines it:
the `Literal` constraint on `outcome` is the only value-level constraint
(close fees / close price carry no sign check in the schema). -/
def parsePositionClose (outcome : String) (close_date : Int)
    (close_price_per_share close_fees : Option Rat) : Except ApiError PositionClose :=
  if outcome = "EXPIRED" ∨ outcome = "ASSIGNED" ∨ outcome = "CLOSED_EARLY" then
    .ok { outcome := outcome, close_date := close_date,
          close_price_per_share := close_price_per_share,
          close_fees := close_fees }
  else .error .validationFailure

/-! ## Position Lifecycle Manager (`app/routers/positions.py`) -/

/-- Lookup `db.query(Position).filter(Position.id == pid, Position.user_id == uid).first()`. -/
def findPosition (db : DB) (pid uid : Nat) : Option Position :=
  db.positions.find? (fun q => q.id == pid && q.user_id == uid)

/-- Lookup `db.query(Account).filter(Account.id == aid, Account.user_id == uid).first()`. -/
def findAccount (db : DB) (aid uid : Nat) : Option Account :=
  db.accounts.find? (fun a => a.id == aid && a.user_id == uid)

/-- Committing a mutation of the row whose primary key is `pid`
(`id` is the primary key, so the mutated ORM object is that row). -/
def replaceById (l : List Position) (pid : Nat) (newp : Position) : List Position :=
  l.map (fun q => if q.id = pid then newp else q)

/-- The `Position(...)` constructor call shared by `create_position` and
`roll_position`: ticker uppercased, status forced to OPEN, `close_fees`
takes the column's server default 0, `roll_group_id` as supplied. -/
def newPositionFromCreate (body : PositionCreate) (uid newId : Nat)
    (rollGid : Option Nat) : Position :=
  { id := newId, user_id := uid, account_id := body.account_id,
    ticker := body.ticker.toUpper, type := body.type.value, status := "OPEN",
    open_date := body.open_date, expiration_date := body.expiration_date,
    close_date := none, strike_price := body.strike_price,
    contracts := body.contracts, multiplier := body.multiplier,
    premium_per_share := body.premium_per_share, open_fees := body.open_fees,
    close_fees := 0, close_price_per_share := none, outcome := none,
    roll_group_id := rollGid, notes := body.notes, tags := body.tags }

/-- Handler `create_position` (lines 79-116): account ownership check, then insert.
`newId` stands for the server-generated primary key. -/
def create_position (db : DB) (uid : Nat) (body : PositionCreate)
    (newId : Nat) : DB × Except ApiError Position :=
  match findAccount db body.account_id uid with
  | none => (db, .error .accountNotOwned)
  | some _ =>
      let p := newPositionFromCreate body uid newId none
      ({ db with positions := db.positions ++ [p] }, .ok p)

/-- The `setattr` loop of `update_position`:
`for field, value in update_data.items(): setattr(position, field, value)`
over `update_data = body.model_dump(exclude_unset=True)`.  The keys are
distinct and each assignment touches exactly one attribute, so the loop is
embedded field-wise: each of the fourteen updatable columns takes the body's
value exactly when its field name is explicitly present, and keeps its
stored value otherwise.  The ticker is uppercased and `type` is
`.value`-ized when not `None`.  For the nullable columns
(`close_price_per_share`, `notes`, `tags`) an explicitly supplied `None`
clears the column.  For a NOT NULL column an explicitly supplied `None` is
`setattr`'d in memory but the commit raises `IntegrityError`, so no such
update ever reaches the store: `updateCommit` rejects those bodies (see
`nullsNotNullColumn`) before this function's value matters, and the
keep-the-stored-value branches here exist only to keep the function total
on inputs `updateCommit` never commits.  The schema has no `status`,
`outcome` or `close_date` field, so those columns always keep their stored
values. -/
def applyUpdate (p : Position) (body : PositionUpdate) : Position :=
  { id := p.id, user_id := p.user_id,
    account_id :=
      if body.fieldsSet.contains ("account_id") then
        (match body.account_id with
         | some v => v
         | none => p.account_id)
      else p.account_id,
    ticker :=
      if body.fieldsSet.contains ("ticker") then
        (match body.ticker with
         | some v => v.toUpper
         | none => p.ticker)
      else p.ticker,
    type :=
      if body.fieldsSet.contains ("type") then
        (match body.type with
         | some v => v.value
         | none => p.type)
      else p.type,
    status := p.status,
    open_date :=
      if body.fieldsSet.contains ("open_date") then
        (match body.open_date with
         | some v => v
         | none => p.open_date)
      else p.open_date,
    expiration_date :=
      if body.fieldsSet.contains ("expiration_date") then
        (match body.expiration_date with
         | some v => v
         | none => p.expiration_date)
      else p.expiration_date,
    close_date := p.close_date,
    strike_price :=
      if body.fieldsSet.contains ("strike_price") then
        (match body.strike_price with
         | some v => v
         | none => p.strike_price)
      else p.strike_price,
    contracts :=
      if body.fieldsSet.contains ("contracts") then
        (match body.contracts with
         | some v => v
         | none => p.contracts)
      else p.contracts,
    multiplier :=
      if body.fieldsSet.contains ("multiplier") then
        (match body.multiplier with
         | some v => v
         | none => p.multiplier)
      else p.multiplier,
    premium_per_share :=
      if body.fieldsSet.contains ("premium_per_share") then
        (match body.premium_per_share with
         | some v => v
         | none => p.premium_per_share)
      else p.premium_per_share,
    open_fees :=
      if body.fieldsSet.contains ("open_fees") then
        (match body.open_fees with
         | some v => v
         | none => p.open_fees)
      else p.open_fees,
    close_fees :=
      if body.fieldsSet.contains ("close_fees") then
        (match body.close_fees with
         | some v => v
         | none => p.close_fees)
      else p.close_fees,
    close_price_per_share :=
      if body.fieldsSet.contains ("close_price_per_share") then body.close_price_per_share
      else p.close_price_per_share,
    outcome := p.outcome,
    roll_group_id := p.roll_group_id,
    notes :=
      if body.fieldsSet.contains ("notes") then body.notes
      else p.notes,
    tags :=
      if body.fieldsSet.contains ("tags") then body.tags
      else p.tags }

/-- Whether the body explicitly supplies `None` for one of the NOT NULL
columns of the `positions` table (every updatable column except the
nullable `close_price_per_share`, `notes` and `tags`).  Such a body is
representable — every `PositionUpdate` field is `Optional` and an explicit
`null` lands in `model_fields_set` — and its `setattr` cannot be committed:
`db.commit()` raises `IntegrityError`. -/
def nullsNotNullColumn (body : PositionUpdate) : Bool :=
  (body.fieldsSet.contains ("account_id") && body.account_id.isNone) ||
  (body.fieldsSet.contains ("ticker") && body.ticker.isNone) ||
  (body.fieldsSet.contains ("type") && body.type.isNone) ||
  (body.fieldsSet.contains ("open_date") && body.open_date.isNone) ||
  (body.fieldsSet.contains ("expiration_date") && body.expiration_date.isNone) ||
  (body.fieldsSet.contains ("strike_price") && body.strike_price.isNone) ||
  (body.fieldsSet.contains ("contracts") && body.contracts.isNone) ||
  (body.fieldsSet.contains ("premium_per_share") && body.premium_per_share.isNone) ||
  (body.fieldsSet.contains ("multiplier") && body.multiplier.isNone) ||
  (body.fieldsSet.contains ("open_fees") && body.open_fees.isNone) ||
  (body.fieldsSet.contains ("close_fees") && body.close_fees.isNone)

/-- Commit step of `update_position`: the mutated row replaces the stored
row with that primary key — unless the body explicitly nulls a NOT NULL
column, in which case `db.commit()` raises `IntegrityError` and the stored
state is left unchanged (the request fails, it is not accepted). -/
def updateCommit (db : DB) (pid : Nat) (p : Position) (body : PositionUpdate) :
    DB × Except ApiError Position :=
  if nullsNotNullColumn body then (db, .error .integrityError)
  else
    let p' := applyUpdate p body
    ({ db with positions := replaceById db.positions pid p' }, .ok p')

/-- Handler `update_position` (lines 119-161): lookup, account-ownership check when
`account_id` is present and not `None`, then the exclude-unset apply loop.
There is no already-closed guard. -/
def update_position (db : DB) (uid pid : Nat) (body : PositionUpdate) :
    DB × Except ApiError Position :=
  match findPosition db pid uid with
  | none => (db, .error .notFound)
  | some p =>
      if body.fieldsSet.contains ("account_id") then
        match body.account_id with
        | some aid =>
            match findAccount db aid uid with
            | none => (db, .error .accountNotOwned)
            | some _ => updateCommit db pid p body
        | none => updateCommit db pid p body
      else updateCommit db pid p body

/-- The mutation block of `close_position` (lines 182-188): status CLOSED,
outcome as given, close_date set; close price / close fees only when
explicitly supplied. -/
def applyClose (p : Position) (body : PositionClose) : Position :=
  { p with
      status := "CLOSED",
      outcome := some body.outcome,
      close_date := some body.close_date,
      close_price_per_share :=
        (match body.close_price_per_share with
         | some v => some v
         | none => p.close_price_per_share),
      close_fees :=
        (match body.close_fees with
         | some v => v
         | none => p.close_fees) }

/-- Handler `close_position` (lines 164-192): lookup, already-closed guard, mutate,
commit. -/
def close_position (db : DB) (uid pid : Nat) (body : PositionClose) :
    DB × Except ApiError Position :=
  match findPosition db pid uid with
  | none => (db, .error .notFound)
  | some p =>
      if p.status = "CLOSED" then (db, .error .alreadyClosed)
      else
        let p' := applyClose p body
        ({ db with positions := replaceById db.positions pid p' }, .ok p')

/-- The close-the-old-leg block of `roll_position` (lines 229-237): status
CLOSED, outcome forced to ROLLED, the shared roll-group id attached, close
terms applied with the same conditional assignments as `close_position`. -/
def applyRollClose (p : Position) (body : PositionRollClose) (rollGid : Nat) : Position :=
  { p with
      status := "CLOSED",
      outcome := some ("ROLLED"),
      roll_group_id := some rollGid,
      close_date := some body.close_date,
      close_price_per_share :=
        (match body.close_price_per_share with
         | some v => some v
         | none => p.close_price_per_share),
      close_fees :=
        (match body.close_fees with
         | some v => v
         | none => p.close_fees) }

/-- Handler `roll_position` (lines 195-264): lookup, already-closed guard, ownership
check of the new leg's account, then — as one committed unit — close the old
leg with the fresh roll-group id and insert the new OPEN leg with the same
id.  `newId` stands for the server-generated primary key of the new row and
`rollGid` for the `uuid4()` roll-group identifier. -/
def roll_position (db : DB) (uid pid : Nat) (body : PositionRoll)
    (newId rollGid : Nat) : DB × Except ApiError (Position × Position) :=
  match findPosition db pid uid with
  | none => (db, .error .notFound)
  | some p =>
      if p.status = "CLOSED" then (db, .error .alreadyClosed)
      else
        match findAccount db body.«open».account_id uid with
        | none => (db, .error .accountNotOwned)
        | some _ =>
            let closed := applyRollClose p body.close rollGid
            let opened := newPositionFromCreate body.«open» uid newId (some rollGid)
            ({ db with positions := replaceById db.positions pid closed ++ [opened] },
             .ok (closed, opened))

/-! ## Aggregation Layer (`app/routers/dashboard.py`) -/

/-- Helper `_compute_premium` (lines 20-29): recomputes `premium_total` inline and
subtracts fees only for CLOSED positions. -/
def computePremium (p : Position) : Rat :=
  let pt := p.premium_per_share * (p.contracts : Rat) * (p.multiplier : Rat)
  if p.status = "CLOSED" then pt - p.open_fees - p.close_fees else pt

/-- The optional `[start, end]` open-date window filter shared by
`dashboard_summary` and `dashboard_by_ticker`. -/
def inWindow (s e : Option Int) (p : Position) : Bool :=
  (match s with
   | some d => decide (d ≤ p.open_date)
   | none => true) &&
  (match e with
   | some d => decide (p.open_date ≤ d)
   | none => true)

/-- Field `total_premium_collected` of `dashboard_summary` (lines 40-50): sum of
`_compute_premium` over the caller's window-filtered positions. -/
def dashboard_summary_total (db : DB) (uid : Nat) (s e : Option Int) : Rat :=
  ((db.positions.filter (fun p => p.user_id == uid && inWindow s e p)).map
    computePremium).sum

/-- The `TickerSummary` response schema (`app/schemas/dashboard.py`). -/
structure TickerSummary where
  ticker : String
  total_premium : Rat
  trade_count : Nat
  avg_annualized_roc : Rat
deriving DecidableEq

/-- One iteration of the ROC loop of `dashboard_by_ticker` (lines 119-134):
the `continue`d positions (zero collateral, non-positive days in trade)
contribute `0` to `roc_sum`. -/
def rollupRoc (p : Position) : Rat :=
  let coll := p.strike_price * (p.contracts : Rat) * (p.multiplier : Rat)
  if coll = 0 then 0
  else
    let pt := p.premium_per_share * (p.contracts : Rat) * (p.multiplier : Rat)
    let pn := pt - p.open_fees - p.close_fees
    let rp := pn / coll
    let dit : Int :=
      match p.close_date with
      | some c => c - p.open_date
      | none => p.expiration_date - p.open_date
    if dit ≤ 0 then 0 else rp * 365 / (dit : Rat)

/-- The per-group body of `dashboard_by_ticker` (lines 111-144):
`total_premium`, `trade_count`, and
`avg = roc_sum / trade_count if trade_count else 0`. -/
def mkTickerSummary (t : String) (ps : List Position) : TickerSummary :=
  { ticker := t,
    total_premium := (ps.map computePremium).sum,
    trade_count := ps.length,
    avg_annualized_roc :=
      if ps.length = 0 then 0
      else (ps.map rollupRoc).sum / (ps.length : Rat) }

/-- First occurrences, in order, of a list of tickers: the key order of the
`defaultdict` grouping (keys appear in first-insertion order). -/
def dedupFirst : List String → List String
  | [] => []
  | t :: ts => t :: ((dedupFirst ts).filter (fun u => u ≠ t))

/-- Handler `dashboard_by_ticker` (lines 91-149): window-filter the caller's
positions, group by ticker in first-occurrence order (each group is the
in-order sublist with that ticker), build a `TickerSummary` per group, and
stable-sort by `total_premium` descending. -/
def dashboard_by_ticker (db : DB) (uid : Nat) (s e : Option Int) :
    List TickerSummary :=
  let positions := db.positions.filter (fun p => p.user_id == uid && inWindow s e p)
  let results := (dedupFirst (positions.map (fun p => p.ticker))).map
    (fun t => mkTickerSummary t (positions.filter (fun p => p.ticker == t)))
  results.insertionSort (fun a b => b.total_premium ≤ a.total_premium)

/-- Stated from the claim's words, for comparison with the source: the
arithmetic mean of `annualized_roc` over only the group's contributing
positions (nonzero collateral and positive days in trade), with both the sum
and the denominator restricted to those contributors. -/
def claimedAvgAnnualizedRoc (ps : List Position) : Rat :=
  let cs := ps.filter (fun p => decide (¬ collateral p = 0) && decide (0 < days_in_trade p))
  if cs.length = 0 then 0 else (cs.map annualized_roc).sum / (cs.length : Rat)

/-! ## Concrete stores and request bodies used by witnesses and
counterexamples -/

/-- An account owned by user 7. -/
def exAccount : Account := { id := 1, user_id := 7 }

/-- A store holding one OPEN position (`basePos`) owned by user 7. -/
def exDbOpen : DB := { accounts := [exAccount], positions := [basePos] }

/-- Position `basePos` after a normal close. -/
def closedPos : Position :=
  { basePos with status := "CLOSED", outcome := some ("EXPIRED"),
                 close_date := some 10 }

/-- A store holding one CLOSED position owned by user 7. -/
def exDbClosed : DB := { accounts := [exAccount], positions := [closedPos] }

/-- A well-formed close body. -/
def exClose : PositionClose := { outcome := "EXPIRED", close_date := 10 }

/-- A well-formed create body against account 1. -/
def exCreate : PositionCreate :=
  { account_id := 1, ticker := "AAPL", type := .COVERED_CALL, open_date := 10,
    expiration_date := 40, strike_price := 100, contracts := 1,
    premium_per_share := 10 }

/-- A well-formed roll body against account 1. -/
def exRollOk : PositionRoll := { close := { close_date := 20 }, «open» := exCreate }

/-- A create body naming an account id that exists for no user. -/
def exCreateBadAcct : PositionCreate := { exCreate with account_id := 999 }

/-- An update body moving the position to the nonexistent account 999. -/
def exUpdBadAcct : PositionUpdate :=
  { account_id := some 999, fieldsSet := ["account_id"] }

/-- A roll body whose new leg names the nonexistent account 999. -/
def exRollBadAcct : PositionRoll :=
  { close := { close_date := 20 }, «open» := exCreateBadAcct }

/-- An update body with an empty change set (no field explicitly present). -/
def exUpdEmpty : PositionUpdate := {}

/-- An update body that only changes the free-text notes. -/
def exUpd10 : PositionUpdate :=
  { notes := some ("updated"), fieldsSet := ["notes"] }

/-- The OPEN position of the C4 aggregation example: premium 3.50, one
contract, multiplier 100, no fees. -/
def pOpen4 : Position :=
  { basePos with user_id := 1, multiplier := 100, premium_per_share := 3.5 }

/-- The CLOSED position of the C4 aggregation example: premium 5.00, one
contract, multiplier 100, fees 1.00 and 0.50. -/
def pClosed4 : Position :=
  { basePos with id := 2, user_id := 1, multiplier := 100,
                 premium_per_share := 5, status := "CLOSED",
                 open_fees := 1, close_fees := 0.5,
                 outcome := some ("EXPIRED"), close_date := some 10 }

/-- Store for the C4 aggregation example, owned by user 1. -/
def exDb4 : DB := { accounts := [], positions := [pOpen4, pClosed4] }

/-- C2 example, contributing position: collateral 100, premium net 10,
365 days in trade, so `annualized_roc = 1/10`. -/
def p2a : Position := { basePos with user_id := 1, expiration_date := 365 }

/-- C2 example, skipped position: zero strike, hence zero collateral. -/
def p2b : Position :=
  { basePos with id := 2, user_id := 1, strike_price := 0,
                 expiration_date := 365 }

/-- Store for the C2 by-ticker example: two AAPL positions of user 1, one
contributing and one with zero collateral. -/
def exDb2 : DB := { accounts := [], positions := [p2a, p2b] }

/-- The ticker summary the source computes for `exDb2`: the ROC sum 1/10
is divided by the full trade count 2. -/
def exTs2 : TickerSummary :=
  { ticker := "AAPL", total_premium := 20, trade_count := 2,
    avg_annualized_roc := 1 / 20 }

/-- A create body with a negative strike price and otherwise valid fields
(the failing input of C6). -/
def rawNegStrike : PositionCreateRaw :=
  { account_id := 1, ticker := "AAPL", type := "COVERED_CALL", open_date := 0,
    expiration_date := 30, strike_price := -1, contracts := 1,
    premium_per_share := 10 }

/-- Body `rawNegStrike` after the only validation the source performs (the enum
coercion of `type`). -/
def parsedNegStrike : PositionCreate :=
  { account_id := 1, ticker := "AAPL", type := .COVERED_CALL, open_date := 0,
    expiration_date := 30, strike_price := -1, contracts := 1,
    premium_per_share := 10 }

/-! ## Theorems -/

/-- C9: the three premium/collateral metrics satisfy their defining equations
exactly (decimal arithmetic modelled as `Rat`, so products and differences
are exact): `premium_total = premium_per_share * contracts * multiplier`,
`premium_net = premium_total - open_fees - close_fees`,
`collateral = strike_price * contracts * multiplier`. -/
theorem C9_metric_defining_equations (p : Position) :
    premium_total p = p.premium_per_share * (p.contracts : Rat) * (p.multiplier : Rat) ∧
    premium_net p = premium_total p - p.open_fees - p.close_fees ∧
    collateral p = p.strike_price * (p.contracts : Rat) * (p.multiplier : Rat) :=
  ⟨rfl, rfl, rfl⟩

/-- C7: the derived-metric guards are total with defined zero results:
`collateral = 0` gives `roc_period = 0` and `annualized_roc = 0` (no division
is performed), `days_in_trade ≤ 0` gives `annualized_roc = 0`, and
`days_in_trade` is close minus open when closed, else expiration minus open. -/
theorem C7_guard_boundaries (p : Position) :
    (collateral p = 0 → roc_period p = 0 ∧ annualized_roc p = 0) ∧
    (days_in_trade p ≤ 0 → annualized_roc p = 0) ∧
    days_in_trade p = (match p.close_date with
      | some c => c - p.open_date
      | none => p.expiration_date - p.open_date) := by
  refine ⟨fun hc => ⟨?_, ?_⟩, fun hd => ?_, rfl⟩
  · simp [roc_period, hc]
  · simp [annualized_roc, hc]
  · by_cases hc : collateral p = 0 <;> simp [annualized_roc, hc, hd]

/-- Witness for C7 at a concrete position with zero collateral and a
non-positive trade duration. -/
theorem C7_guard_boundaries_witness :
    roc_period { basePos with strike_price := 0, close_date := some (-5) } = 0 ∧
    annualized_roc { basePos with strike_price := 0, close_date := some (-5) } = 0 := by
  refine ⟨((C7_guard_boundaries _).1 ?_).1, (C7_guard_boundaries _).2.1 ?_⟩
  · simp [collateral, basePos]
  · simp [days_in_trade, basePos]

/-- C3: Close and Roll on a position whose status is already CLOSED fail
with the already-closed error and leave the stored state entirely unchanged
(the returned state is the pre-state: no field modified, no row added). -/
theorem C3_already_closed_rejected (db : DB) (uid pid newId rollGid : Nat)
    (bodyC : PositionClose) (bodyR : PositionRoll) (p : Position)
    (hfind : findPosition db pid uid = some p)
    (hclosed : p.status = "CLOSED") :
    close_position db uid pid bodyC = (db, .error .alreadyClosed) ∧
    roll_position db uid pid bodyR newId rollGid = (db, .error .alreadyClosed) := by
  constructor
  · simp [close_position, hfind, hclosed]
  · simp [roll_position, hfind, hclosed]

/-- Witness for C3 on a concrete store with a CLOSED position. -/
theorem C3_already_closed_rejected_witness :
    close_position exDbClosed 7 1 exClose = (exDbClosed, .error .alreadyClosed) ∧
    roll_position exDbClosed 7 1 exRollOk 2 50 = (exDbClosed, .error .alreadyClosed) :=
  C3_already_closed_rejected exDbClosed 7 1 2 50 exClose exRollOk closedPos rfl rfl

/-- C5: Create, Update, and Roll referencing an account that does not exist
or belongs to another user fail with the account-ownership error and perform
no mutation (the returned state is the pre-state). -/
theorem C5_account_ownership_guard (db : DB) (uid pid newId rollGid aidU : Nat)
    (bodyC : PositionCreate) (bodyU : PositionUpdate) (bodyR : PositionRoll)
    (p : Position) :
    (findAccount db bodyC.account_id uid = none →
      create_position db uid bodyC newId = (db, .error .accountNotOwned)) ∧
    (findPosition db pid uid = some p →
      bodyU.fieldsSet.contains ("account_id") = true →
      bodyU.account_id = some aidU →
      findAccount db aidU uid = none →
      update_position db uid pid bodyU = (db, .error .accountNotOwned)) ∧
    (findPosition db pid uid = some p → ¬ p.status = "CLOSED" →
      findAccount db bodyR.«open».account_id uid = none →
      roll_position db uid pid bodyR newId rollGid = (db, .error .accountNotOwned)) := by
  refine ⟨fun h => ?_, fun hf hc ha hn => ?_, fun hf hs hn => ?_⟩
  · simp [create_position, h]
  · simp [update_position, hf, hc, ha, hn]
    intro h
    exact absurd (by simpa using hc) h
  · simp [roll_position, hf, hs, hn]

/-- Witness for C5: all three operations against the nonexistent account 999
fail without mutating the store. -/
theorem C5_account_ownership_guard_witness :
    create_position exDbOpen 7 exCreateBadAcct 2 = (exDbOpen, .error .accountNotOwned) ∧
    update_position exDbOpen 7 1 exUpdBadAcct = (exDbOpen, .error .accountNotOwned) ∧
    roll_position exDbOpen 7 1 exRollBadAcct 2 50 = (exDbOpen, .error .accountNotOwned) :=
  ⟨(C5_account_ownership_guard exDbOpen 7 1 2 50 999 exCreateBadAcct exUpdBadAcct
      exRollBadAcct basePos).1 rfl,
   (C5_account_ownership_guard exDbOpen 7 1 2 50 999 exCreateBadAcct exUpdBadAcct
      exRollBadAcct basePos).2.1 rfl rfl rfl rfl,
   (C5_account_ownership_guard exDbOpen 7 1 2 50 999 exCreateBadAcct exUpdBadAcct
      exRollBadAcct basePos).2.2 rfl (by decide) rfl⟩

/-- Helper `_compute_premium` agrees with the Metrics Engine: `premium_net` for
CLOSED positions, `premium_total` otherwise. -/
lemma computePremium_eq (p : Position) :
    computePremium p = if p.status = "CLOSED" then premium_net p else premium_total p := by
  simp only [computePremium, premium_net, premium_total]

/-- C4: for every store, caller and open-date window,
`total_premium_collected` is the sum over the window-filtered positions of
`premium_net` if CLOSED else `premium_total` (the Metrics Engine values);
in particular the 3.50-premium OPEN position plus the 5.00-premium CLOSED
position with fees 1.00 and 0.50 total 848.50. -/
theorem C4_summary_total_premium :
    (∀ (db : DB) (uid : Nat) (s e : Option Int),
      dashboard_summary_total db uid s e =
        ((db.positions.filter (fun p => p.user_id == uid && inWindow s e p)).map
          (fun p => if p.status = "CLOSED" then premium_net p else premium_total p)).sum) ∧
    dashboard_summary_total exDb4 1 none none = 848.5 := by
  constructor
  · intro db uid s e
    simp only [dashboard_summary_total]
    rw [funext computePremium_eq]
  · simp [dashboard_summary_total, computePremium, inWindow, exDb4, pOpen4,
          pClosed4, basePos]
    norm_num

/-- An update with an empty change set applies nothing. -/
lemma applyUpdate_empty (p : Position) (body : PositionUpdate)
    (h : body.fieldsSet = []) : applyUpdate p body = p := by
  simp [applyUpdate, h]

/-- Committing an unchanged row leaves the table unchanged (row ids are
primary keys: every row with the target id is the found row). -/
lemma replaceById_self (l : List Position) (pid : Nat) (p : Position)
    (h : ∀ q ∈ l, q.id = pid → q = p) : replaceById l pid p = l := by
  induction l with
  | nil => rfl
  | cons q l ih =>
      unfold replaceById
      rw [List.map_cons]
      have hq : (if q.id = pid then p else q) = q := by
        by_cases hid : q.id = pid
        · simp [hid, (h q (List.mem_cons_self q l) hid).symm]
        · simp [hid]
      rw [hq]
      have := ih (fun r hr hid => h r (List.mem_cons_of_mem q hr) hid)
      unfold replaceById at this
      rw [this]

/-- C8: Update applies exactly the fields explicitly present in the body
(exclude-unset semantics) and leaves every field not present untouched;
with an empty change set the stored state is returned unchanged. -/
theorem C8_exclude_unset_update (db : DB) (uid pid : Nat)
    (body : PositionUpdate) (p : Position)
    (hfind : findPosition db pid uid = some p)
    (hunique : ∀ q ∈ db.positions, q.id = pid → q = p) :
    (body.fieldsSet = [] → update_position db uid pid body = (db, .ok p)) ∧
    ("account_id" ∉ body.fieldsSet → (applyUpdate p body).account_id = p.account_id) ∧
    ("ticker" ∉ body.fieldsSet → (applyUpdate p body).ticker = p.ticker) ∧
    ("type" ∉ body.fieldsSet → (applyUpdate p body).type = p.type) ∧
    ("open_date" ∉ body.fieldsSet → (applyUpdate p body).open_date = p.open_date) ∧
    ("expiration_date" ∉ body.fieldsSet →
      (applyUpdate p body).expiration_date = p.expiration_date) ∧
    ("strike_price" ∉ body.fieldsSet →
      (applyUpdate p body).strike_price = p.strike_price) ∧
    ("contracts" ∉ body.fieldsSet → (applyUpdate p body).contracts = p.contracts) ∧
    ("premium_per_share" ∉ body.fieldsSet →
      (applyUpdate p body).premium_per_share = p.premium_per_share) ∧
    ("multiplier" ∉ body.fieldsSet → (applyUpdate p body).multiplier = p.multiplier) ∧
    ("open_fees" ∉ body.fieldsSet → (applyUpdate p body).open_fees = p.open_fees) ∧
    ("close_fees" ∉ body.fieldsSet → (applyUpdate p body).close_fees = p.close_fees) ∧
    ("close_price_per_share" ∉ body.fieldsSet →
      (applyUpdate p body).close_price_per_share = p.close_price_per_share) ∧
    ("notes" ∉ body.fieldsSet → (applyUpdate p body).notes = p.notes) ∧
    ("tags" ∉ body.fieldsSet → (applyUpdate p body).tags = p.tags) ∧
    ("account_id" ∈ body.fieldsSet → ∀ v, body.account_id = some v →
      (applyUpdate p body).account_id = v) ∧
    ("ticker" ∈ body.fieldsSet → ∀ v, body.ticker = some v →
      (applyUpdate p body).ticker = v.toUpper) ∧
    ("type" ∈ body.fieldsSet → ∀ v, body.type = some v →
      (applyUpdate p body).type = v.value) ∧
    ("open_date" ∈ body.fieldsSet → ∀ v, body.open_date = some v →
      (applyUpdate p body).open_date = v) ∧
    ("expiration_date" ∈ body.fieldsSet → ∀ v, body.expiration_date = some v →
      (applyUpdate p body).expiration_date = v) ∧
    ("strike_price" ∈ body.fieldsSet → ∀ v, body.strike_price = some v →
      (applyUpdate p body).strike_price = v) ∧
    ("contracts" ∈ body.fieldsSet → ∀ v, body.contracts = some v →
      (applyUpdate p body).contracts = v) ∧
    ("premium_per_share" ∈ body.fieldsSet → ∀ v, body.premium_per_share = some v →
      (applyUpdate p body).premium_per_share = v) ∧
    ("multiplier" ∈ body.fieldsSet → ∀ v, body.multiplier = some v →
      (applyUpdate p body).multiplier = v) ∧
    ("open_fees" ∈ body.fieldsSet → ∀ v, body.open_fees = some v →
      (applyUpdate p body).open_fees = v) ∧
    ("close_fees" ∈ body.fieldsSet → ∀ v, body.close_fees = some v →
      (applyUpdate p body).close_fees = v) ∧
    ("close_price_per_share" ∈ body.fieldsSet →
      (applyUpdate p body).close_price_per_share = body.close_price_per_share) ∧
    ("notes" ∈ body.fieldsSet → (applyUpdate p body).notes = body.notes) ∧
    ("tags" ∈ body.fieldsSet → (applyUpdate p body).tags = body.tags) := by
  refine ⟨fun hempty => ?_, ?_, ?_, ?_, ?_, ?_, ?_, ?_, ?_, ?_, ?_, ?_, ?_, ?_, ?_,
    ?_, ?_, ?_, ?_, ?_, ?_, ?_, ?_, ?_, ?_, ?_, ?_, ?_, ?_⟩
  · simp [update_position, hfind, hempty, updateCommit, nullsNotNullColumn,
          applyUpdate_empty p body hempty,
          replaceById_self db.positions pid p hunique]
  all_goals
    first
      | (intro h v hv; simp [applyUpdate, h, hv])
      | (intro h; simp [applyUpdate, h])

/-- Witness for C8: an empty-change-set update of the stored OPEN position
returns the store unchanged and the record itself. -/
theorem C8_exclude_unset_update_witness :
    update_position exDbOpen 7 1 exUpdEmpty = (exDbOpen, .ok basePos) :=
  (C8_exclude_unset_update exDbOpen 7 1 exUpdEmpty basePos rfl
    (fun q hq _ => by simpa [exDbOpen] using hq)).1 rfl

/-- C10: the partial-update schema exposes neither `status` nor `outcome`,
so Update never changes them for any stored position and any body; and
being CLOSED never causes rejection (there is no already-closed guard): an
update of a CLOSED position whose body passes the checks the handler does
perform — here, no `account_id` change and no explicit `null` for a NOT
NULL column, which would fail at commit with `IntegrityError` — is
accepted, commits, and leaves the position CLOSED with the other fields
applied. -/
theorem C10_update_on_closed_accepted (db : DB) (uid pid : Nat)
    (body : PositionUpdate) (p : Position)
    (hfind : findPosition db pid uid = some p)
    (hclosed : p.status = "CLOSED")
    (hacct : "account_id" ∉ body.fieldsSet)
    (hnull : nullsNotNullColumn body = false) :
    (∀ (q : Position) (b : PositionUpdate),
      (applyUpdate q b).status = q.status ∧ (applyUpdate q b).outcome = q.outcome) ∧
    update_position db uid pid body =
      ({ db with positions := replaceById db.positions pid (applyUpdate p body) },
       .ok (applyUpdate p body)) ∧
    (applyUpdate p body).status = "CLOSED" := by
  have hc : body.fieldsSet.contains ("account_id") = false := by simpa using hacct
  refine ⟨fun q b => ⟨rfl, rfl⟩, ?_, hclosed⟩
  simp [update_position, hfind, hc, updateCommit, hnull]
  intro hmem
  exact absurd hmem hacct

/-- Witness for C10: a notes-only update of a CLOSED position (which nulls
no NOT NULL column) succeeds and leaves status CLOSED. -/
theorem C10_update_on_closed_accepted_witness :
    update_position exDbClosed 7 1 exUpd10 =
      ({ exDbClosed with
           positions := replaceById exDbClosed.positions 1 (applyUpdate closedPos exUpd10) },
       .ok (applyUpdate closedPos exUpd10)) ∧
    (applyUpdate closedPos exUpd10).status = "CLOSED" :=
  ⟨(C10_update_on_closed_accepted exDbClosed 7 1 exUpd10 closedPos rfl rfl
      (by decide) (by decide)).2.1,
   (C10_update_on_closed_accepted exDbClosed 7 1 exUpd10 closedPos rfl rfl
      (by decide) (by decide)).2.2⟩

lemma replaceById_cons (q : Position) (l : List Position) (pid : Nat)
    (newp : Position) :
    replaceById (q :: l) pid newp =
      (if q.id = pid then newp else q) :: replaceById l pid newp := rfl

/-- Replacing a row that is not present changes nothing. -/
lemma replaceById_no_match (l : List Position) (pid : Nat) (newp : Position)
    (h : ∀ q ∈ l, ¬ q.id = pid) : replaceById l pid newp = l := by
  induction l with
  | nil => rfl
  | cons q l ih =>
      rw [replaceById_cons, if_neg (h q (List.mem_cons_self q l)),
          ih (fun r hr => h r (List.mem_cons_of_mem q hr))]

/-- No row carries a roll-group id that no row carries. -/
lemma filter_rgid_nil (l : List Position) (g : Nat)
    (h : ∀ q ∈ l, q.roll_group_id ≠ some g) :
    l.filter (fun q => q.roll_group_id == some g) = [] := by
  induction l with
  | nil => rfl
  | cons q l ih =>
      rw [List.filter_cons]
      have hq : (q.roll_group_id == some g) = false := by
        simpa using h q (List.mem_cons_self q l)
      rw [hq]
      exact ih (fun r hr => h r (List.mem_cons_of_mem q hr))

/-- After replacing the unique row with the target id by a row carrying the
fresh roll-group id, that row is the only one carrying it. -/
lemma filter_rgid_replace (l : List Position) (pid : Nat) (newp : Position)
    (g : Nat)
    (hfresh : ∀ q ∈ l, q.roll_group_id ≠ some g)
    (hcount : l.countP (fun q => q.id == pid) = 1)
    (hnew : newp.roll_group_id = some g) :
    (replaceById l pid newp).filter (fun q => q.roll_group_id == some g) = [newp] := by
  induction l with
  | nil => simp at hcount
  | cons q l ih =>
      rw [List.countP_cons] at hcount
      by_cases hq : q.id = pid
      · have hb : (q.id == pid) = true := by simp [hq]
        rw [hb] at hcount
        norm_num at hcount
        rw [replaceById_cons, if_pos hq, replaceById_no_match l pid newp hcount,
            List.filter_cons]
        have : (newp.roll_group_id == some g) = true := by simp [hnew]
        rw [this]
        simp [filter_rgid_nil l g (fun r hr => hfresh r (List.mem_cons_of_mem q hr))]
      · have hb : (q.id == pid) = false := by simp [hq]
        rw [hb] at hcount
        norm_num at hcount
        rw [replaceById_cons, if_neg hq, List.filter_cons]
        have : (q.roll_group_id == some g) = false := by
          simpa using hfresh q (List.mem_cons_self q l)
        rw [this]
        exact ih (fun r hr => hfresh r (List.mem_cons_of_mem q hr)) hcount

/-- C1: rolling an OPEN position owned by the caller commits, as one unit,
exactly two positions sharing the freshly generated roll-group id: the
original position, now CLOSED with outcome ROLLED and the supplied close
terms applied, and a new OPEN position built from the supplied open terms. -/
theorem C1_roll_two_linked_positions (db : DB)
    (uid pid newId rollGid : Nat) (body : PositionRoll) (p : Position)
    (a : Account)
    (hfind : findPosition db pid uid = some p)
    (hopen : ¬ p.status = "CLOSED")
    (hacct : findAccount db body.«open».account_id uid = some a)
    (hfresh : ∀ q ∈ db.positions, q.roll_group_id ≠ some rollGid)
    (hcount : db.positions.countP (fun q => q.id == pid) = 1) :
    roll_position db uid pid body newId rollGid =
      ({ db with
           positions := replaceById db.positions pid (applyRollClose p body.close rollGid)
             ++ [newPositionFromCreate body.«open» uid newId (some rollGid)] },
       .ok (applyRollClose p body.close rollGid,
            newPositionFromCreate body.«open» uid newId (some rollGid))) ∧
    (roll_position db uid pid body newId rollGid).1.positions.filter
        (fun q => q.roll_group_id == some rollGid) =
      [applyRollClose p body.close rollGid,
       newPositionFromCreate body.«open» uid newId (some rollGid)] ∧
    (applyRollClose p body.close rollGid).status = "CLOSED" ∧
    (applyRollClose p body.close rollGid).outcome = some ("ROLLED") ∧
    (applyRollClose p body.close rollGid).roll_group_id = some rollGid ∧
    (applyRollClose p body.close rollGid).id = p.id ∧
    (applyRollClose p body.close rollGid).close_date = some body.close.close_date ∧
    (applyRollClose p body.close rollGid).close_price_per_share =
      (match body.close.close_price_per_share with
       | some v => some v
       | none => p.close_price_per_share) ∧
    (applyRollClose p body.close rollGid).close_fees =
      (match body.close.close_fees with
       | some v => v
       | none => p.close_fees) ∧
    (applyRollClose p body.close rollGid).ticker = p.ticker ∧
    (applyRollClose p body.close rollGid).strike_price = p.strike_price ∧
    (applyRollClose p body.close rollGid).contracts = p.contracts ∧
    (applyRollClose p body.close rollGid).premium_per_share = p.premium_per_share ∧
    (newPositionFromCreate body.«open» uid newId (some rollGid)).status = "OPEN" ∧
    (newPositionFromCreate body.«open» uid newId (some rollGid)).roll_group_id =
      some rollGid ∧
    (newPositionFromCreate body.«open» uid newId (some rollGid)).user_id = uid ∧
    (newPositionFromCreate body.«open» uid newId (some rollGid)).account_id =
      body.«open».account_id ∧
    (newPositionFromCreate body.«open» uid newId (some rollGid)).ticker =
      body.«open».ticker.toUpper ∧
    (newPositionFromCreate body.«open» uid newId (some rollGid)).type =
      body.«open».type.value ∧
    (newPositionFromCreate body.«open» uid newId (some rollGid)).open_date =
      body.«open».open_date ∧
    (newPositionFromCreate body.«open» uid newId (some rollGid)).expiration_date =
      body.«open».expiration_date ∧
    (newPositionFromCreate body.«open» uid newId (some rollGid)).strike_price =
      body.«open».strike_price ∧
    (newPositionFromCreate body.«open» uid newId (some rollGid)).contracts =
      body.«open».contracts ∧
    (newPositionFromCreate body.«open» uid newId (some rollGid)).multiplier =
      body.«open».multiplier ∧
    (newPositionFromCreate body.«open» uid newId (some rollGid)).premium_per_share =
      body.«open».premium_per_share ∧
    (newPositionFromCreate body.«open» uid newId (some rollGid)).open_fees =
      body.«open».open_fees ∧
    (newPositionFromCreate body.«open» uid newId (some rollGid)).close_date = none ∧
    (newPositionFromCreate body.«open» uid newId (some rollGid)).outcome = none := by
  have hroll : roll_position db uid pid body newId rollGid =
      ({ db with
           positions := replaceById db.positions pid (applyRollClose p body.close rollGid)
             ++ [newPositionFromCreate body.«open» uid newId (some rollGid)] },
       .ok (applyRollClose p body.close rollGid,
            newPositionFromCreate body.«open» uid newId (some rollGid))) := by
    simp [roll_position, hfind, hopen, hacct]
  refine ⟨hroll, ?_, ?_⟩
  · rw [hroll]
    rw [List.filter_append]
    rw [filter_rgid_replace db.positions pid (applyRollClose p body.close rollGid)
          rollGid hfresh hcount rfl]
    simp [newPositionFromCreate]
  · repeat' first
      | exact rfl
      | constructor

/-- Witness for C1: rolling the stored OPEN position of `exDbOpen` leaves
exactly the closed old leg and the new OPEN leg sharing roll-group id 50. -/
theorem C1_roll_two_linked_positions_witness :
    (roll_position exDbOpen 7 1 exRollOk 2 50).1.positions.filter
        (fun q => q.roll_group_id == some 50) =
      [applyRollClose basePos exRollOk.close 50,
       newPositionFromCreate exRollOk.«open» 7 2 (some 50)] :=
  (C1_roll_two_linked_positions exDbOpen 7 1 2 50 exRollOk basePos exAccount
      rfl (by decide) rfl
      (fun q hq => by
        rw [show exDbOpen.positions = [basePos] from rfl, List.mem_singleton] at hq
        subst hq
        simp [basePos])
      (by decide)).2.1

/-- The inline ROC computation of `dashboard_by_ticker` agrees with the
Metrics Engine's `annualized_roc` on every position (the `continue`d
positions are exactly those whose `annualized_roc` is the guard value 0). -/
lemma rollupRoc_eq (p : Position) : rollupRoc p = annualized_roc p := by
  unfold rollupRoc annualized_roc roc_period collateral premium_net
    premium_total days_in_trade
  dsimp only
  split_ifs <;> rfl

lemma mem_dedupFirst {t : String} :
    ∀ {l : List String}, t ∈ dedupFirst l → t ∈ l := by
  intro l
  induction l with
  | nil => intro h; exact absurd h (List.not_mem_nil t)
  | cons u us ih =>
      intro h
      rcases List.mem_cons.mp h with h | h
      · exact h ▸ List.mem_cons_self u us
      · exact List.mem_cons_of_mem u (ih (List.mem_filter.mp h).1)

/-- C2 (amended): for every ticker group in the by-ticker rollup,
`trade_count` counts every position of the group, and
`avg_annualized_roc` is the sum of the group's `annualized_roc` values
divided by `trade_count` — the skipped positions (zero collateral or
non-positive days in trade) contribute nothing to the sum, since their
`annualized_roc` is 0, but they do count in the denominator. -/
theorem C2_by_ticker_avg_over_trade_count (db : DB) (uid : Nat)
    (s e : Option Int) (ts : TickerSummary)
    (hmem : ts ∈ dashboard_by_ticker db uid s e) :
    ts.trade_count =
      ((db.positions.filter (fun p => p.user_id == uid && inWindow s e p)).filter
        (fun p => p.ticker == ts.ticker)).length ∧
    ts.avg_annualized_roc =
      (((db.positions.filter (fun p => p.user_id == uid && inWindow s e p)).filter
          (fun p => p.ticker == ts.ticker)).map annualized_roc).sum /
        (ts.trade_count : Rat) := by
  simp only [dashboard_by_ticker] at hmem
  have hmem' := (List.perm_insertionSort
    (fun a b : TickerSummary => b.total_premium ≤ a.total_premium) _).subset hmem
  obtain ⟨t, ht, rfl⟩ := List.mem_map.mp hmem'
  have hne : ((db.positions.filter (fun p => p.user_id == uid && inWindow s e p)).filter
      (fun p => p.ticker == t)).length ≠ 0 := by
    obtain ⟨p, hp, hpt⟩ := List.mem_map.mp (mem_dedupFirst ht)
    have hpg : p ∈ (db.positions.filter
        (fun p => p.user_id == uid && inWindow s e p)).filter
        (fun p => p.ticker == t) :=
      List.mem_filter.mpr ⟨hp, by simp [hpt]⟩
    simpa using List.ne_nil_of_mem hpg
  constructor
  · rfl
  · show (mkTickerSummary t _).avg_annualized_roc = _
    rw [mkTickerSummary]
    simp only [if_neg hne]
    rw [funext rollupRoc_eq]

/-- The by-ticker rollup of the two-position store `exDb2` evaluates to the
single summary `exTs2`: the contributing position's annualized ROC 1/10 is
divided by the full trade count 2. -/
lemma exDb2_by_ticker_eval :
    dashboard_by_ticker exDb2 1 none none = [exTs2] := by
  simp [dashboard_by_ticker, mkTickerSummary, dedupFirst, computePremium,
        rollupRoc, inWindow, exDb2, p2a, p2b, basePos, exTs2,
        List.insertionSort, List.orderedInsert]
  norm_num

/-- On `exDb2`, the average the claim describes (mean over contributors
only) is 1/10. -/
lemma exDb2_claimed_avg_eval :
    claimedAvgAnnualizedRoc (exDb2.positions.filter (fun p => p.ticker == "AAPL")) =
      1 / 10 := by
  simp [claimedAvgAnnualizedRoc, collateral, days_in_trade, annualized_roc,
        roc_period, premium_net, premium_total, exDb2, p2a, p2b, basePos]
  norm_num

/-- C2 counterexample: in the store `exDb2` (two AAPL positions of the same
user, one contributing with annualized ROC 1/10, one skipped for zero
collateral), the code's `avg_annualized_roc` is 1/20 — the ROC sum divided
by the full trade count — while the arithmetic mean over only the
contributing positions is 1/10.  The skipped position is excluded from the
sum but *not* from the denominator, so the claim as stated fails. -/
theorem C2_by_ticker_avg_counterexample :
    dashboard_by_ticker exDb2 1 none none = [exTs2] ∧
    exTs2.avg_annualized_roc = 1 / 20 ∧
    claimedAvgAnnualizedRoc (exDb2.positions.filter (fun p => p.ticker == "AAPL")) =
      1 / 10 ∧
    (1 / 20 : Rat) ≠ 1 / 10 := by
  refine ⟨exDb2_by_ticker_eval, rfl, exDb2_claimed_avg_eval, by norm_num⟩

/-- Witness for the amended C2 on the concrete store `exDb2`. -/
theorem C2_by_ticker_avg_over_trade_count_witness :
    exTs2.trade_count =
      ((exDb2.positions.filter (fun p => p.user_id == 1 && inWindow none none p)).filter
        (fun p => p.ticker == exTs2.ticker)).length ∧
    exTs2.avg_annualized_roc =
      (((exDb2.positions.filter (fun p => p.user_id == 1 && inWindow none none p)).filter
          (fun p => p.ticker == exTs2.ticker)).map annualized_roc).sum /
        (exTs2.trade_count : Rat) :=
  C2_by_ticker_avg_over_trade_count exDb2 1 none none exTs2
    (by rw [exDb2_by_ticker_eval]; exact List.mem_singleton.mpr rfl)

/-- C6 (divergence evidence): the source schemas perform no value-level
validation beyond enum/`Literal` checks.  A create body with strike price
−1 parses successfully and `create_position` inserts it; a close body with
close fees −1 parses successfully; only an unrecognized enumerated value is
rejected. -/
theorem C6_schema_accepts_malformed_terms :
    parsePositionCreate rawNegStrike = .ok parsedNegStrike ∧
    create_position exDbOpen 7 parsedNegStrike 2 =
      ({ exDbOpen with
           positions := exDbOpen.positions ++
             [newPositionFromCreate parsedNegStrike 7 2 none] },
       .ok (newPositionFromCreate parsedNegStrike 7 2 none)) ∧
    (newPositionFromCreate parsedNegStrike 7 2 none).strike_price = -1 ∧
    parsePositionClose ("EXPIRED") 10 none (some (-1)) =
      .ok { outcome := "EXPIRED", close_date := 10,
            close_price_per_share := none, close_fees := some (-1) } ∧
    parsePositionCreate { rawNegStrike with type := "INVALID_TYPE" } =
      .error .validationFailure := by
  refine ⟨rfl, rfl, rfl, ?_, rfl⟩
  simp [parsePositionClose]

end Wheelhouse
